import Mathlib

/-!
A verification model of the EmojiPhysics simulation core (`src/EmojiPhysics.ts`).

The physics world is shallowly embedded: a matter-js `Body` becomes a list of
`MPart`s (a simple body is its own single part, a compound body additionally
carries its inner parts, mirroring `body.parts`).  Coordinates are rationals
standing in for the JS floats (all the code does with them here is compare
against bounds).  matter-js assigns globally unique increasing integer ids to
bodies and parts; this is modelled by a `nextId` counter threaded through body
creation.  `World.remove(world, body)` removes a body from the top-level body
list when it is present there by reference; removing an inner part of a
compound therefore removes nothing, which the model captures by matching on
the (globally unique) id against top-level bodies only.

External effects are modelled explicitly: the random values consumed by
`Init` (layout roll) and `CreateEmojiBall` (horizontal offset) are passed as
arguments, rasterization of an emoji onto the shared canvas is an abstract
function `rasterize : String → String` (the canvas drawing itself happens in
the browser), and the asynchronous load of the pendulum's SVG texture is a
boolean outcome `imgOk` (`img.onload` fired / `img.onerror` fired), with the
callback taken to run synchronously.  `console.error` calls append to `log`.
-/

namespace EmojiPhysics

/-- One matter-js part: id, label, static flag and position.  `Bodies.circle`
produces label `"Circle Body"`, `Bodies.rectangle` produces
`"Rectangle Body"`, and a compound created by `Body.create` has label
`"Body"`. -/
structure MPart where
  id : Nat
  label : String
  isStatic : Bool
  x : ℚ
  y : ℚ
deriving DecidableEq

/-- A top-level body of the world: its own part plus (for compounds) the
inner parts.  matter-js exposes `body.parts` with the body itself first. -/
structure MBody where
  self : MPart
  extra : List MPart
deriving DecidableEq

/-- The `parts` array of a body: the body itself followed by inner parts. -/
def MBody.parts (b : MBody) : List MPart := b.self :: b.extra

/-- The mutable state of an `EmojiPhysics` instance. -/
structure PhysState where
  world : List MBody
  emojiCount : ℤ
  bigBallId : Nat
  renderWidth : ℚ
  renderHeight : ℚ
  renderTop : ℚ
  swingDirection : ℤ
  emojiMap : List (String × String)
  nextId : Nat
  log : List String
deriving DecidableEq

/-- `MAX_EMOJIS` from the source. -/
def MAX_EMOJIS : ℤ := 1000

/-- `BIG_BALL_RADIUS` from the source. -/
def BIG_BALL_RADIUS : ℚ := 50

/-- `_bottomBorderHeight` from the source. -/
def bottomBorderHeight : ℚ := 20

/-- `_bottomBorderOffset` from the source. -/
def bottomBorderOffset : ℚ := 20

/-- JavaScript `Math.round`: floor of `x + 1/2` (ties round up). -/
def jsRound (x : ℚ) : ℤ := ⌊x + 1/2⌋

/-- The criterion shared by the after-render cleanup and `ClearAllEmojis`
(lines 100 and 207 of the source): a part counts as an emoji when its label
is `"Circle Body"`, it is not static, and its id differs from `_bigBallId`. -/
def isEmojiPart (bigBallId : Nat) (p : MPart) : Bool :=
  p.label == "Circle Body" && p.isStatic == false && p.id != bigBallId

/-- The out-of-bounds test of the after-render cleanup (line 103):
`y > RenderHeight || x < 0 || x > RenderWidth`. -/
def isOutOfBounds (w h : ℚ) (p : MPart) : Bool :=
  decide (p.y > h) || decide (p.x < 0) || decide (p.x > w)

/-- All parts of all top-level bodies, in iteration order
(`Composite.allBodies` then `compound.parts`). -/
def worldParts (s : PhysState) : List MPart :=
  (s.world.map MBody.parts).flatten

/-- The parts matched by one run of the after-render cleanup pass. -/
def cleanupMatchedParts (s : PhysState) : List MPart :=
  (worldParts s).filter
    (fun p => isEmojiPart s.bigBallId p && isOutOfBounds s.renderWidth s.renderHeight p)

/-- The per-frame `afterRender` cleanup pass: every matched part is passed to
`World.remove` (which removes it only if it is itself a top-level body) and
decrements `_emojiCount` unconditionally. -/
def cleanupPass (s : PhysState) : PhysState :=
  { s with
    world := s.world.filter
      (fun b => (cleanupMatchedParts s).all (fun p => p.id != b.self.id)),
    emojiCount := s.emojiCount - (cleanupMatchedParts s).length }

/-- The parts matched by `ClearAllEmojis` (same criterion, no bounds test). -/
def clearMatchedParts (s : PhysState) : List MPart :=
  (worldParts s).filter (fun p => isEmojiPart s.bigBallId p)

/-- `ClearAllEmojis`: for every part matching the emoji criterion, remove it
from the world (a no-op for inner parts of compounds) and decrement
`_emojiCount`. -/
def ClearAllEmojis (s : PhysState) : PhysState :=
  { s with
    world := s.world.filter
      (fun b => (clearMatchedParts s).all (fun p => p.id != b.self.id)),
    emojiCount := s.emojiCount - (clearMatchedParts s).length }

/-- `createEmojiTexture`: rasterizes one emoji on the shared 32×32 canvas and
returns its data URL.  The canvas work is external to the model; it is
abstracted as the function `rasterize`, applied to the emoji. -/
def createEmojiTexture (rasterize : String → String) (emoji : String) : String :=
  rasterize emoji

/-- `getEmojiTexture`: return the cached texture when `_emojiMap` has the
symbol, otherwise create, cache and return it.  The extra `Bool` reports
whether rasterization work was performed by this call. -/
def getEmojiTexture (rasterize : String → String) (m : List (String × String))
    (emoji : String) : String × List (String × String) × Bool :=
  match m.lookup emoji with
  | some t => (t, m, false)
  | none =>
      let t := createEmojiTexture rasterize emoji
      (t, m ++ [(emoji, t)], true)

/-- The emoji ball body created by `CreateEmojiBall`: a fresh non-static
circle of radius 10 at the top of the playfield, horizontally offset from the
center by `(rnd * 2 - 1) * RenderWidth / 50` where `rnd` is the value of
`Math.random()`.  The texture only affects the render sprite, which has no
field in the geometric part record. -/
def emojiBallBody (rnd : ℚ) (s : PhysState) : MBody :=
  { self := { id := s.nextId, label := "Circle Body", isStatic := false,
              x := s.renderWidth / 2 + (rnd * 2 - 1) * s.renderWidth / 50, y := 0 },
    extra := [] }

/-- `CreateEmojiBall`: reject (with a `console.error`) when the counter is at
`MAX_EMOJIS`; otherwise resolve the texture through the cache, increment the
counter and add a fresh emoji ball to the world.  `Bodies.circle` always
returns a body, so the `if (ball)` fallback branch of the source (which
would decrement the counter again) is never taken. -/
def CreateEmojiBall (rasterize : String → String) (rnd : ℚ) (s : PhysState)
    (emoji : String) : PhysState × Option MBody :=
  if s.emojiCount ≥ MAX_EMOJIS then
    ({ s with log := s.log ++ ["Max emoji count exceeded..."] }, none)
  else
    ({ s with
        emojiCount := s.emojiCount + 1,
        emojiMap := (getEmojiTexture rasterize s.emojiMap emoji).2.1,
        nextId := s.nextId + 1,
        world := s.world ++ [emojiBallBody rnd s] }, some (emojiBallBody rnd s))

/-- A body shape before an id has been assigned. -/
structure ProtoPart where
  label : String
  isStatic : Bool
  x : ℚ
  y : ℚ
deriving DecidableEq

/-- A top-level body shape before ids have been assigned. -/
structure ProtoBody where
  self : ProtoPart
  extra : List ProtoPart
deriving DecidableEq

/-- Attach a concrete id to a proto part. -/
def instPart (n : Nat) (p : ProtoPart) : MPart :=
  { id := n, label := p.label, isStatic := p.isStatic, x := p.x, y := p.y }

/-- Attach consecutive ids to a list of proto parts. -/
def instParts : Nat → List ProtoPart → List MPart
  | _, [] => []
  | n, p :: ps => instPart n p :: instParts (n + 1) ps

/-- Attach fresh ids to a list of proto bodies, returning the bodies and the
next unused id.  matter-js draws ids from a single increasing counter; only
freshness and distinctness of ids matter to the model, not their order. -/
def assignIds : Nat → List ProtoBody → List MBody × Nat
  | n, [] => ([], n)
  | n, b :: bs =>
      let made : MBody := { self := instPart n b.self, extra := instParts (n + 1) b.extra }
      let rest := assignIds (n + 1 + b.extra.length) bs
      (made :: rest.1, rest.2)

/-- The two boundary rectangles added by `Init`: an invisible full-width strip
above the top edge and the visible bottom strip at 80% width. -/
def boundaryProtos (w h : ℚ) : List ProtoBody :=
  [{ self := { label := "Rectangle Body", isStatic := true, x := w / 2, y := -10 }, extra := [] },
   { self := { label := "Rectangle Body", isStatic := true, x := w / 2,
               y := h - bottomBorderOffset }, extra := [] }]

/-- `createPegs(5, 25)`: a parity-masked grid of small static circles with
row and column counts derived from the playfield height. -/
def pegProtos (spacing w h : ℚ) : List ProtoBody :=
  let rows := (jsRound (h / 75)).toNat
  let cols := (jsRound (h / (3333/100))).toNat
  let startX := w / 2 - ((cols : ℚ) - 1) * spacing / 2
  let startY := (h - BIG_BALL_RADIUS * 2) / 2 - ((rows : ℚ) - 1) * spacing / 2
  ((List.range rows).map (fun row =>
    (List.range cols).filterMap (fun col =>
      if (row % 2 == 0 && col % 2 == 0) || (row % 2 != 0 && col % 2 != 0) then
        some { self := { label := "Circle Body", isStatic := true,
                         x := startX + (col : ℚ) * spacing,
                         y := startY + (row : ℚ) * spacing }, extra := [] }
      else none))).flatten

/-- `createSlats`: a stack of tilted static bars; rotation is about the
center and the alternating translate shifts the center by ±120. -/
def slatProtos (w h : ℚ) : List ProtoBody :=
  let slatCount := (jsRound (h / 150)).toNat
  (List.range slatCount).map (fun i =>
    let y := (h - BIG_BALL_RADIUS * 2) / 2 - ((slatCount : ℚ) / 2 * 75) + (i : ℚ) * 75
    if i % 2 == 0 then
      { self := { label := "Rectangle Body", isStatic := true, x := w / 2 - 120, y := y },
        extra := [] }
    else
      { self := { label := "Rectangle Body", isStatic := true, x := w / 2 + 120, y := y },
        extra := [] })

/-- `createPaddlewheel`: a non-static compound (label `"Body"`) made of a
central non-static circle and four non-static paddle rectangles, all centered
at the wheel's pin point. -/
def paddlewheelProto (x y : ℚ) : ProtoBody :=
  { self := { label := "Body", isStatic := false, x := x, y := y },
    extra := { label := "Circle Body", isStatic := false, x := x, y := y } ::
      (List.range 4).map (fun _ =>
        { label := "Rectangle Body", isStatic := false, x := x, y := y }) }

/-- The dual-paddlewheel branch of `Init`, including the right wheel's
diameter adjustment near the swing anchor region. -/
def wheelsProtos (w h : ℚ) : List ProtoBody :=
  let paddleDiam : ℚ := 250
  let rightPaddleWheelYPosition := (h - BIG_BALL_RADIUS * 2) / 2 - 100
  let paddleDiamAdjust :=
    if paddleDiam / 2 > rightPaddleWheelYPosition - 5 then
      paddleDiam / 2 - rightPaddleWheelYPosition + 5
    else 0
  [paddlewheelProto (w / 2 + paddleDiam / 2 - 10 - paddleDiamAdjust / 2)
      rightPaddleWheelYPosition,
   paddlewheelProto (w / 2 - paddleDiam / 2 + 10) ((h - BIG_BALL_RADIUS * 2) / 2)]

/-- `createPaddle`: a single non-static pinned rectangle. -/
def paddleProto (x y : ℚ) : ProtoBody :=
  { self := { label := "Rectangle Body", isStatic := false, x := x, y := y }, extra := [] }

/-- The facing-paddles branch of `Init`. -/
def paddlesProtos (w h : ℚ) : List ProtoBody :=
  let paddleDiam : ℚ := 220
  [paddleProto (w / 2 + paddleDiam / 2) ((h - BIG_BALL_RADIUS * 2) / 2),
   paddleProto (w / 2 - paddleDiam / 2) ((h - BIG_BALL_RADIUS * 2) / 2)]

/-- The random four-way layout choice of `Init` (`rnd` is the value of
`Math.random()`). -/
def layoutProtos (rnd w h : ℚ) : List ProtoBody :=
  if rnd ≤ 1/4 then pegProtos 25 w h
  else if rnd ≤ 1/2 then slatProtos w h
  else if rnd ≤ 3/4 then wheelsProtos w h
  else paddlesProtos w h

/-- The pendulum body created in `addSwingingBall`'s `onload` callback: a
non-static circle at the horizontal center, resting just above the bottom
border (`y = constraintLength + BIG_BALL_RADIUS`). -/
def bigBallProto (w h : ℚ) : ProtoPart :=
  { label := "Circle Body", isStatic := false, x := w / 2,
    y := (h - bottomBorderOffset - bottomBorderHeight / 2 - BIG_BALL_RADIUS - 5)
         + BIG_BALL_RADIUS }

/-- `addSwingingBall`: when the SVG texture loads (`imgOk`), the `onload`
callback creates the big ball, records its id in `_bigBallId` and adds it
(with its anchor constraint) to the world; on `onerror` the failure is only
logged and no body is ever created. -/
def addSwingingBall (imgOk : Bool) (s : PhysState) : PhysState :=
  if imgOk then
    { s with
      bigBallId := s.nextId,
      world := s.world ++
        [{ self := instPart s.nextId (bigBallProto s.renderWidth s.renderHeight),
           extra := [] }],
      nextId := s.nextId + 1 }
  else
    { s with log := s.log ++ ["Failed to load the SVG image:"] }

/-- `Init`: clear the whole world (bodies and constraints), then add the two
boundaries, one randomly chosen obstacle layout, and the swinging ball.
`_emojiCount` is not touched. -/
def Init (rnd : ℚ) (imgOk : Bool) (s : PhysState) : PhysState :=
  let bnd := assignIds s.nextId (boundaryProtos s.renderWidth s.renderHeight)
  let lay := assignIds bnd.2 (layoutProtos rnd s.renderWidth s.renderHeight)
  addSwingingBall imgOk { s with world := bnd.1 ++ lay.1, nextId := lay.2 }

/-- The `Dimensions` setter: store the new top, width and height, then
rebuild via `Init`. -/
def setDimensions (rnd : ℚ) (imgOk : Bool) (t w h : ℚ) (s : PhysState) : PhysState :=
  Init rnd imgOk { s with renderTop := t, renderWidth := w, renderHeight := h }

/-- The state right after field initialization, before the constructor's
`Init()` call.  Ids start at 1 (matter-js never allocates id 0 here, so the
initial `_bigBallId = 0` matches no body). -/
def initialState (w h t : ℚ) : PhysState :=
  { world := [], emojiCount := 0, bigBallId := 0, renderWidth := w, renderHeight := h,
    renderTop := t, swingDirection := -1, emojiMap := [], nextId := 1, log := [] }

/-- The constructor: capture the container dimensions, start engine and
renderer, and run `Init`. -/
def construct (rnd : ℚ) (imgOk : Bool) (w h t : ℚ) : PhysState :=
  Init rnd imgOk (initialState w h t)

/-- The transient emoji bodies actually present in the world: the top-level
bodies matching the emoji criterion (non-static simple circles other than
the pendulum). -/
def transientEmojiBodies (s : PhysState) : List MBody :=
  s.world.filter (fun b => isEmojiPart s.bigBallId b.self)

/-- The true number of transient emoji bodies in the world. -/
def transientCount (s : PhysState) : ℕ := (transientEmojiBodies s).length

/-- A sequence of `CreateEmojiBall` calls, each with its own random offset
value and emoji. -/
def spawnMany (rasterize : String → String) (inputs : List (ℚ × String))
    (s : PhysState) : PhysState :=
  inputs.foldl (fun st q => (CreateEmojiBall rasterize q.1 st q.2).1) s

/-- `_swingForce` from the source. -/
noncomputable def swingForce : ℝ := 50

open Classical in
/-- The direction update at the start of each `beforeUpdate` tick, as a
function of the angle `Math.atan2(ball.y - anchor.y, ball.x - anchor.x)`
computed by the tick and of the current `_swingDirection`. -/
noncomputable def nextSwingDirection (angle : ℝ) (dir : ℤ) : ℤ :=
  if |angle| > Real.pi * 0.7 ∧ dir = -1 then 1
  else if |angle| < Real.pi * 0.3 ∧ dir = 1 then -1
  else dir

open Classical in
/-- One full `beforeUpdate` tick: update the direction, then apply the
constant horizontal force `{x: direction * _swingForce, y: 0}` at the ball's
position exactly when the (updated) direction and the angle satisfy the
force condition of line 126.  Returns the new direction and the applied
force, if any. -/
noncomputable def swingTick (angle : ℝ) (dir : ℤ) : ℤ × Option (ℝ × ℝ) :=
  if (nextSwingDirection angle dir = 1 ∧ |angle| < Real.pi / 2) ∨
     (nextSwingDirection angle dir = -1 ∧ |angle| > Real.pi / 2) then
    (nextSwingDirection angle dir, some ((nextSwingDirection angle dir : ℝ) * swingForce, 0))
  else
    (nextSwingDirection angle dir, none)

/-! ### Helper lemmas about id assignment and the builders -/

theorem instParts_mem_id (n : Nat) (ps : List ProtoPart) :
    ∀ p ∈ instParts n ps, n ≤ p.id ∧ p.id < n + ps.length := by
  induction ps generalizing n with
  | nil => simp [instParts]
  | cons q qs ih =>
      intro p hp
      simp only [instParts, List.mem_cons] at hp
      rcases hp with rfl | hp
      · simp only [instPart, List.length_cons]
        omega
      · have h := ih (n + 1) p hp
        simp only [List.length_cons]
        omega

theorem assignIds_snd_le (n : Nat) (l : List ProtoBody) : n ≤ (assignIds n l).2 := by
  induction l generalizing n with
  | nil => simp [assignIds]
  | cons b bs ih =>
      simp only [assignIds]
      exact le_trans (by omega) (ih (n + 1 + b.extra.length))

theorem assignIds_length (n : Nat) (l : List ProtoBody) :
    (assignIds n l).1.length = l.length := by
  induction l generalizing n with
  | nil => simp [assignIds]
  | cons b bs ih => simp [assignIds, ih]

theorem assignIds_part_id_bounds (n : Nat) (l : List ProtoBody) :
    ∀ b ∈ (assignIds n l).1, ∀ p ∈ b.parts, n ≤ p.id ∧ p.id < (assignIds n l).2 := by
  induction l generalizing n with
  | nil => simp [assignIds]
  | cons q qs ih =>
      simp only [assignIds]
      intro b hb p hp
      have hsnd := assignIds_snd_le (n + 1 + q.extra.length) qs
      rcases List.mem_cons.1 hb with rfl | hb
      · simp only [MBody.parts, List.mem_cons] at hp
        rcases hp with rfl | hp
        · simp only [instPart]
          omega
        · have h := instParts_mem_id (n + 1) q.extra p hp
          omega
      · have h := ih (n + 1 + q.extra.length) b hb p hp
        exact ⟨by omega, h.2⟩

theorem assignIds_self_id_bounds (n : Nat) (l : List ProtoBody) :
    ∀ b ∈ (assignIds n l).1, n ≤ b.self.id ∧ b.self.id < (assignIds n l).2 := by
  intro b hb
  exact assignIds_part_id_bounds n l b hb b.self (by simp [MBody.parts])

theorem assignIds_self_shape (n : Nat) (l : List ProtoBody) :
    ∀ b ∈ (assignIds n l).1, ∃ q ∈ l,
      b.self.label = q.self.label ∧ b.self.isStatic = q.self.isStatic := by
  induction l generalizing n with
  | nil => simp [assignIds]
  | cons q qs ih =>
      simp only [assignIds]
      intro b hb
      rcases List.mem_cons.1 hb with rfl | hb
      · exact ⟨q, List.mem_cons_self q qs, by simp [instPart]⟩
      · obtain ⟨q2, hq2, hs⟩ := ih (n + 1 + q.extra.length) b hb
        exact ⟨q2, List.mem_cons_of_mem q hq2, hs⟩

theorem boundaryProtos_static (w h : ℚ) :
    ∀ q ∈ boundaryProtos w h, q.self.isStatic = true := by
  intro q hq
  simp only [boundaryProtos, List.mem_cons, List.not_mem_nil, or_false] at hq
  rcases hq with rfl | rfl <;> rfl

theorem layoutProtos_self_shape (rnd w h : ℚ) :
    ∀ q ∈ layoutProtos rnd w h,
      q.self.isStatic = true ∨ q.self.label = "Body" ∨
        q.self.label = "Rectangle Body" := by
  intro q hq
  unfold layoutProtos at hq
  split_ifs at hq
  · unfold pegProtos at hq
    simp only [List.mem_flatten, List.mem_map, List.mem_range] at hq
    obtain ⟨L, ⟨row, _, rfl⟩, hqL⟩ := hq
    simp only [List.mem_filterMap, List.mem_range] at hqL
    obtain ⟨col, _, hcol⟩ := hqL
    split_ifs at hcol
    left
    cases hcol
    rfl
  · unfold slatProtos at hq
    simp only [List.mem_map, List.mem_range] at hq
    obtain ⟨i, _, rfl⟩ := hq
    split_ifs <;> left <;> rfl
  · unfold wheelsProtos at hq
    simp only [List.mem_cons, List.not_mem_nil, or_false] at hq
    rcases hq with rfl | rfl <;> right <;> left <;> rfl
  · unfold paddlesProtos at hq
    simp only [List.mem_cons, List.not_mem_nil, or_false] at hq
    rcases hq with rfl | rfl <;> right <;> right <;> rfl

theorem isEmojiPart_false_of_static (bid : Nat) (p : MPart)
    (h : p.isStatic = true) : isEmojiPart bid p = false := by
  simp [isEmojiPart, h]

theorem isEmojiPart_false_of_label (bid : Nat) (p : MPart)
    (h : p.label ≠ "Circle Body") : isEmojiPart bid p = false := by
  have hb : (p.label == "Circle Body") = false := beq_eq_false_iff_ne.2 h
  simp [isEmojiPart, hb]

theorem isEmojiPart_false_of_id (bid : Nat) (p : MPart)
    (h : p.id = bid) : isEmojiPart bid p = false := by
  simp [isEmojiPart, h]

theorem Init_emojiCount (rnd : ℚ) (imgOk : Bool) (s : PhysState) :
    (Init rnd imgOk s).emojiCount = s.emojiCount := by
  cases imgOk <;> rfl

theorem Init_log (rnd : ℚ) (s : PhysState) :
    (Init rnd false s).log = s.log ++ ["Failed to load the SVG image:"] := rfl

theorem Init_false_world (rnd : ℚ) (s : PhysState) :
    (Init rnd false s).world =
      (assignIds s.nextId (boundaryProtos s.renderWidth s.renderHeight)).1 ++
      (assignIds (assignIds s.nextId (boundaryProtos s.renderWidth s.renderHeight)).2
        (layoutProtos rnd s.renderWidth s.renderHeight)).1 := rfl

theorem Init_false_bigBallId (rnd : ℚ) (s : PhysState) :
    (Init rnd false s).bigBallId = s.bigBallId := rfl

theorem Init_true_world (rnd : ℚ) (s : PhysState) :
    (Init rnd true s).world =
      (assignIds s.nextId (boundaryProtos s.renderWidth s.renderHeight)).1 ++
      (assignIds (assignIds s.nextId (boundaryProtos s.renderWidth s.renderHeight)).2
        (layoutProtos rnd s.renderWidth s.renderHeight)).1 ++
      [{ self := instPart
            (assignIds (assignIds s.nextId (boundaryProtos s.renderWidth s.renderHeight)).2
              (layoutProtos rnd s.renderWidth s.renderHeight)).2
            (bigBallProto s.renderWidth s.renderHeight),
         extra := [] }] := rfl

theorem Init_true_bigBallId (rnd : ℚ) (s : PhysState) :
    (Init rnd true s).bigBallId =
      (assignIds (assignIds s.nextId (boundaryProtos s.renderWidth s.renderHeight)).2
        (layoutProtos rnd s.renderWidth s.renderHeight)).2 := rfl

theorem layout_body_self_not_emoji (bid : Nat) (n : Nat) (rnd w h : ℚ) (b : MBody)
    (hb : b ∈ (assignIds n (layoutProtos rnd w h)).1) :
    isEmojiPart bid b.self = false := by
  obtain ⟨q, hq, hl, hs⟩ := assignIds_self_shape _ _ b hb
  rcases layoutProtos_self_shape _ _ _ q hq with h | h | h
  · exact isEmojiPart_false_of_static _ _ (hs.trans h)
  · exact isEmojiPart_false_of_label _ _ (by rw [hl, h]; decide)
  · exact isEmojiPart_false_of_label _ _ (by rw [hl, h]; decide)

theorem boundary_body_self_not_emoji (bid : Nat) (n : Nat) (w h : ℚ) (b : MBody)
    (hb : b ∈ (assignIds n (boundaryProtos w h)).1) :
    isEmojiPart bid b.self = false := by
  obtain ⟨q, hq, hl, hs⟩ := assignIds_self_shape _ _ b hb
  exact isEmojiPart_false_of_static _ _ (hs.trans (boundaryProtos_static _ _ q hq))

theorem transientCount_Init (rnd : ℚ) (imgOk : Bool) (s : PhysState) :
    transientCount (Init rnd imgOk s) = 0 := by
  unfold transientCount transientEmojiBodies
  rw [List.length_eq_zero, List.filter_eq_nil_iff]
  intro b hb
  cases imgOk with
  | false =>
      rw [Init_false_world, List.mem_append] at hb
      rw [Init_false_bigBallId]
      rcases hb with hb | hb
      · simp [boundary_body_self_not_emoji _ _ _ _ b hb]
      · simp [layout_body_self_not_emoji _ _ _ _ _ b hb]
  | true =>
      rw [Init_true_world, List.mem_append, List.mem_append] at hb
      rw [Init_true_bigBallId]
      rcases hb with (hb | hb) | hb
      · simp [boundary_body_self_not_emoji _ _ _ _ b hb]
      · simp [layout_body_self_not_emoji _ _ _ _ _ b hb]
      · simp only [List.mem_singleton] at hb
        subst hb
        rw [Bool.not_eq_true]
        exact isEmojiPart_false_of_id _ _ rfl

/-! ### The swing state machine (claims C6 and C7) -/

/-- C6: in the per-tick swing state machine, the direction flips to positive
only when `|θ| > 0.7π` while the direction was negative, flips to negative
only when `|θ| < 0.3π` while the direction was positive, and never flips
under any other condition.  Here `θ` is the angle the tick computes from the
ball's position relative to the anchor (the `Math.atan2` value of line
115). -/
theorem swingDirection_flip_iff (a : ℝ) (d : ℤ) :
    (nextSwingDirection a d = 1 ∧ d ≠ 1 ↔ d = -1 ∧ |a| > Real.pi * 0.7) ∧
    (nextSwingDirection a d = -1 ∧ d ≠ -1 ↔ d = 1 ∧ |a| < Real.pi * 0.3) ∧
    (nextSwingDirection a d ≠ d ↔
      (d = -1 ∧ |a| > Real.pi * 0.7) ∨ (d = 1 ∧ |a| < Real.pi * 0.3)) := by
  unfold nextSwingDirection
  split_ifs with h1 h2
  · obtain ⟨ha, hd⟩ := h1
    subst hd
    refine ⟨⟨fun _ => ⟨rfl, ha⟩, fun _ => ⟨rfl, by decide⟩⟩, ?_, ?_⟩
    · constructor
      · rintro ⟨hx, -⟩
        exact absurd hx (by decide)
      · rintro ⟨hx, -⟩
        exact absurd hx (by decide)
    · exact ⟨fun _ => Or.inl ⟨rfl, ha⟩, fun _ => by decide⟩
  · obtain ⟨ha, hd⟩ := h2
    subst hd
    refine ⟨?_, ⟨fun _ => ⟨rfl, ha⟩, fun _ => ⟨rfl, by decide⟩⟩, ?_⟩
    · constructor
      · rintro ⟨hx, -⟩
        exact absurd hx (by decide)
      · rintro ⟨hx, -⟩
        exact absurd hx (by decide)
    · exact ⟨fun _ => Or.inr ⟨rfl, ha⟩, fun _ => by decide⟩
  · refine ⟨?_, ?_, ?_⟩
    · constructor
      · rintro ⟨rfl, hx⟩
        exact absurd rfl hx
      · rintro ⟨rfl, hx⟩
        exact absurd ⟨hx, rfl⟩ h1
    · constructor
      · rintro ⟨rfl, hx⟩
        exact absurd rfl hx
      · rintro ⟨rfl, hx⟩
        exact absurd ⟨hx, rfl⟩ h2
    · constructor
      · intro hx
        exact absurd rfl hx
      · rintro (⟨rfl, hx⟩ | ⟨rfl, hx⟩)
        · exact absurd ⟨hx, rfl⟩ h1
        · exact absurd ⟨hx, rfl⟩ h2

/-- C7: on each physics tick, a constant-magnitude purely horizontal force
signed by the current direction is applied at the body's center exactly when
(direction is positive and `|θ| < π/2`) or (direction is negative and
`|θ| > π/2`), and no force is applied otherwise.  `θ` is the angle the tick
computes from the ball's position relative to the anchor, and "current
direction" is the direction after this tick's flip update, matching the
statement order of the source (flip at lines 120–124, force at lines
126–131). -/
theorem swingTick_force_iff (a : ℝ) (d : ℤ) :
    (swingTick a d).1 = nextSwingDirection a d ∧
    ((swingTick a d).2 = some ((nextSwingDirection a d : ℝ) * swingForce, 0) ↔
      (nextSwingDirection a d = 1 ∧ |a| < Real.pi / 2) ∨
      (nextSwingDirection a d = -1 ∧ |a| > Real.pi / 2)) ∧
    ((swingTick a d).2 = none ↔
      ¬ ((nextSwingDirection a d = 1 ∧ |a| < Real.pi / 2) ∨
         (nextSwingDirection a d = -1 ∧ |a| > Real.pi / 2))) := by
  unfold swingTick
  split_ifs with h
  · exact ⟨rfl, ⟨fun _ => h, fun _ => rfl⟩, by simp [h]⟩
  · exact ⟨rfl, by simp [h], by simp [h]⟩

/-! ### The texture cache (claim C9) -/

theorem lookup_append_some (m : List (String × String)) (e t : String)
    (h : m.lookup e = none) : (m ++ [(e, t)]).lookup e = some t := by
  induction m with
  | nil => simp [List.lookup]
  | cons p ps ih =>
      obtain ⟨k, v⟩ := p
      rw [List.cons_append]
      simp only [List.lookup] at h ⊢
      cases hek : (e == k) with
      | true =>
          rw [hek] at h
          exact Option.noConfusion h
      | false =>
          rw [hek] at h
          exact ih h

/-- C9: for every symbol, the first `getEmojiTexture` call rasterizes the
symbol and stores the result, every later call with the same symbol returns
the identical cached texture with no rasterization work, and the cache never
evicts an entry (`m1` is a cache not yet holding `e1`; `m2` is a cache
already holding `e2 ↦ t`). -/
theorem getEmojiTexture_cache_spec (rasterize : String → String)
    (m1 m2 : List (String × String)) (e1 e2 t : String)
    (h1 : m1.lookup e1 = none) (h2 : m2.lookup e2 = some t) :
    getEmojiTexture rasterize m2 e2 = (t, m2, false) ∧
    getEmojiTexture rasterize m1 e1 =
      (createEmojiTexture rasterize e1,
       m1 ++ [(e1, createEmojiTexture rasterize e1)], true) ∧
    getEmojiTexture rasterize (getEmojiTexture rasterize m1 e1).2.1 e1 =
      (createEmojiTexture rasterize e1, (getEmojiTexture rasterize m1 e1).2.1, false) ∧
    (∀ p ∈ m1, p ∈ (getEmojiTexture rasterize m1 e1).2.1) ∧
    (∀ p ∈ m2, p ∈ (getEmojiTexture rasterize m2 e2).2.1) := by
  have g1 : getEmojiTexture rasterize m1 e1 =
      (createEmojiTexture rasterize e1,
       m1 ++ [(e1, createEmojiTexture rasterize e1)], true) := by
    unfold getEmojiTexture
    rw [h1]
  have g2 : getEmojiTexture rasterize m2 e2 = (t, m2, false) := by
    unfold getEmojiTexture
    rw [h2]
  refine ⟨g2, g1, ?_, ?_, ?_⟩
  · rw [g1]
    unfold getEmojiTexture
    rw [lookup_append_some m1 e1 _ h1]
  · rw [g1]
    intro p hp
    exact List.mem_append_left _ hp
  · rw [g2]
    intro p hp
    exact hp

/-- Witness for C9 at concrete caches. -/
theorem getEmojiTexture_cache_spec_witness :
    getEmojiTexture id [("b", "B")] ("b") = ("B", [("b", "B")], false) ∧
    getEmojiTexture id [] ("a") =
      (createEmojiTexture id ("a"), [("a", createEmojiTexture id ("a"))], true) := by
  have h := getEmojiTexture_cache_spec id [] [("b", "B")] ("a") ("b") ("B")
    (by decide) (by decide)
  exact ⟨h.1, h.2.1⟩

/-! ### The Init frame effect on the counter (claim C10) -/

/-- C10: `Init` (and hence the `Dimensions` setter) removes every emoji body
from the world via `World.clear` but leaves `_emojiCount` unchanged: after
`Init` the counter still reads its old value while zero transient bodies
exist, and a subsequent `CreateEmojiBall` is rejected precisely when that
stale counter is at the cap, even though the true live population (0) is
below the cap. -/
theorem Init_keeps_counter_clears_emojis (s : PhysState) (rnd r : ℚ)
    (rasterize : String → String) (e : String) :
    (Init rnd true s).emojiCount = s.emojiCount ∧
    transientCount (Init rnd true s) = 0 ∧
    ((CreateEmojiBall rasterize r (Init rnd true s) e).2 = none ↔
      s.emojiCount ≥ MAX_EMOJIS) := by
  refine ⟨Init_emojiCount rnd true s, transientCount_Init rnd true s, ?_⟩
  unfold CreateEmojiBall
  simp only [Init_emojiCount]
  split_ifs with h
  · simp [h]
  · simp [h]

/-! ### The population bound (claim C1) -/

/-- The spawn invariant: the counter agrees with the true transient
population, is at most the cap, and the pendulum id is below the id counter
(so a fresh ball never collides with it).  It holds in every freshly
constructed simulation. -/
def SpawnInv (s : PhysState) : Prop :=
  s.emojiCount = (transientCount s : ℤ) ∧
  s.emojiCount ≤ MAX_EMOJIS ∧
  s.bigBallId < s.nextId

instance (s : PhysState) : Decidable (SpawnInv s) := by
  unfold SpawnInv
  infer_instance

theorem CreateEmojiBall_preserves_inv (rasterize : String → String) (r : ℚ)
    (e : String) (s : PhysState) (h : SpawnInv s) :
    SpawnInv (CreateEmojiBall rasterize r s e).1 := by
  obtain ⟨hc, hle, hbig⟩ := h
  unfold CreateEmojiBall
  split_ifs with hcap
  · exact ⟨hc, hle, hbig⟩
  · have hball : isEmojiPart s.bigBallId (emojiBallBody r s).self = true := by
      simp only [isEmojiPart, emojiBallBody]
      simp [bne_iff_ne]
      omega
    have hle2 : s.emojiCount + 1 ≤ MAX_EMOJIS := by
      unfold MAX_EMOJIS at hcap ⊢
      omega
    have hbig2 : s.bigBallId < s.nextId + 1 := by omega
    refine ⟨?_, hle2, hbig2⟩
    show s.emojiCount + 1 = _
    unfold transientCount transientEmojiBodies at hc ⊢
    simp only [List.filter_append, List.length_append]
    rw [List.filter_cons, List.filter_nil]
    simp only [hball, if_pos]
    push_cast
    rw [hc]
    simp

theorem spawnMany_inv (rasterize : String → String) (inputs : List (ℚ × String))
    (s : PhysState) (h : SpawnInv s) : SpawnInv (spawnMany rasterize inputs s) := by
  induction inputs generalizing s with
  | nil => exact h
  | cons q qs ih =>
      exact ih _ (CreateEmojiBall_preserves_inv rasterize q.1 q.2 s h)

/-- C1: for any sequence of `CreateEmojiBall` calls from a state whose
counter is consistent (in particular the freshly constructed simulation),
the live count of transient emoji bodies never exceeds `MAX_EMOJIS`; and a
call made while the counter is at the cap creates no new body, adds nothing
to the world, raises no exception (it only logs), and leaves the counter
unchanged. -/
theorem CreateEmojiBall_population_bound (rasterize : String → String)
    (inputs : List (ℚ × String)) (s t : PhysState) (r : ℚ) (e : String)
    (hs : SpawnInv s) (ht : t.emojiCount ≥ MAX_EMOJIS) :
    (transientCount (spawnMany rasterize inputs s) : ℤ) ≤ MAX_EMOJIS ∧
    (CreateEmojiBall rasterize r t e).2 = none ∧
    (CreateEmojiBall rasterize r t e).1.world = t.world ∧
    (CreateEmojiBall rasterize r t e).1.emojiCount = t.emojiCount ∧
    (CreateEmojiBall rasterize r t e).1.log =
      t.log ++ ["Max emoji count exceeded..."] := by
  have h2 := spawnMany_inv rasterize inputs s hs
  have hrej : CreateEmojiBall rasterize r t e =
      ({ t with log := t.log ++ ["Max emoji count exceeded..."] }, none) := by
    unfold CreateEmojiBall
    rw [if_pos ht]
  rw [hrej]
  exact ⟨by rw [← h2.1]; exact h2.2.1, rfl, rfl, rfl, rfl⟩

/-- The spawn invariant holds in every freshly constructed simulation (for
any layout roll and dimensions), so C1's hypothesis is met there. -/
theorem SpawnInv_construct (rnd w h t : ℚ) : SpawnInv (construct rnd true w h t) := by
  have hc : construct rnd true w h t = Init rnd true (initialState w h t) := rfl
  refine ⟨?_, ?_, ?_⟩
  · rw [hc, Init_emojiCount, transientCount_Init]
    rfl
  · rw [hc, Init_emojiCount]
    show (0 : ℤ) ≤ 1000
    decide
  · exact Nat.lt_succ_self _

/-- A small concrete state satisfying the spawn invariant: one emoji ball in
the world, counter 1. -/
def spawnDemoState : PhysState :=
  { world := [{ self := { id := 1, label := "Circle Body", isStatic := false,
                          x := 3, y := 4 }, extra := [] }],
    emojiCount := 1, bigBallId := 0, renderWidth := 100, renderHeight := 100,
    renderTop := 0, swingDirection := -1, emojiMap := [], nextId := 2, log := [] }

/-- The same state with the counter forced to the cap. -/
def cappedDemoState : PhysState := { spawnDemoState with emojiCount := 1000 }

/-- Witness for C1 at concrete states. -/
theorem CreateEmojiBall_population_bound_witness :
    SpawnInv spawnDemoState ∧
    cappedDemoState.emojiCount ≥ MAX_EMOJIS ∧
    (transientCount (spawnMany id [((1 : ℚ)/2, "a")] spawnDemoState) : ℤ) ≤ MAX_EMOJIS ∧
    (CreateEmojiBall id 0 cappedDemoState ("x")).2 = none ∧
    (CreateEmojiBall id 0 cappedDemoState ("x")).1.world = cappedDemoState.world ∧
    (CreateEmojiBall id 0 cappedDemoState ("x")).1.emojiCount =
      cappedDemoState.emojiCount := by
  have h := CreateEmojiBall_population_bound id [((1 : ℚ)/2, "a")]
    spawnDemoState cappedDemoState 0 ("x") (by decide) (by decide)
  exact ⟨by decide, by decide, h.1, h.2.1, h.2.2.1, h.2.2.2.1⟩

/-! ### The cleanup pass (claim C4) -/

theorem self_mem_worldParts (s : PhysState) (b : MBody) (hb : b ∈ s.world) :
    b.self ∈ worldParts s := by
  unfold worldParts
  rw [List.mem_flatten]
  exact ⟨b.parts, List.mem_map_of_mem MBody.parts hb, by simp [MBody.parts]⟩

/-- C4: assuming globally distinct part ids (which matter-js guarantees),
the per-frame cleanup pass removes a top-level body exactly when it matches
the emoji criterion (non-static `"Circle Body"` other than the pendulum, by
id) and its position is strictly beyond the bottom, left or right open
boundary.  In particular an in-bounds transient body is never removed, and
the pendulum (excluded by id) and all obstacle bodies (static, or labelled
`"Body"` / `"Rectangle Body"`, or only circular as inner parts of a compound
— which `World.remove` cannot detach) are never removed regardless of
position. -/
theorem cleanup_removal_iff (s : PhysState) (b : MBody)
    (hids : ((worldParts s).map MPart.id).Nodup) (hb : b ∈ s.world) :
    b ∈ (cleanupPass s).world ↔
      ¬ (isEmojiPart s.bigBallId b.self = true ∧
         isOutOfBounds s.renderWidth s.renderHeight b.self = true) := by
  have hself : b.self ∈ worldParts s := self_mem_worldParts s b hb
  unfold cleanupPass
  simp only [List.mem_filter]
  constructor
  · rintro ⟨-, hall⟩ ⟨hcrit, hout⟩
    have hmatch : b.self ∈ cleanupMatchedParts s := by
      unfold cleanupMatchedParts
      rw [List.mem_filter]
      exact ⟨hself, by simp [hcrit, hout]⟩
    have hne := List.all_eq_true.1 hall b.self hmatch
    simp only [bne_self_eq_false] at hne
    exact Bool.false_ne_true hne
  · intro hn
    refine ⟨hb, List.all_eq_true.2 ?_⟩
    intro p hp
    have hpfilter := List.mem_filter.1 hp
    have hpj : p ∈ worldParts s := hpfilter.1
    simp only [bne_iff_ne, ne_eq, decide_eq_true_eq]
    intro hpe
    have hpb : p = b.self := List.inj_on_of_nodup_map hids hpj hself hpe
    subst hpb
    have hprops := hpfilter.2
    rw [Bool.and_eq_true] at hprops
    exact hn ⟨hprops.1, hprops.2⟩

/-- A concrete world exercising every case of the cleanup rule: the pendulum
(id 1) out of bounds, an emoji ball (id 2) out of bounds on the left, an
emoji ball (id 3) in bounds, and a static peg (id 4) out of bounds. -/
def cleanupDemo : PhysState :=
  { world :=
      [{ self := { id := 1, label := "Circle Body", isStatic := false,
                   x := 50, y := 900 }, extra := [] },
       { self := { id := 2, label := "Circle Body", isStatic := false,
                   x := -5, y := 10 }, extra := [] },
       { self := { id := 3, label := "Circle Body", isStatic := false,
                   x := 50, y := 50 }, extra := [] },
       { self := { id := 4, label := "Circle Body", isStatic := true,
                   x := -50, y := -50 }, extra := [] }],
    emojiCount := 2, bigBallId := 1, renderWidth := 100, renderHeight := 100,
    renderTop := 0, swingDirection := -1, emojiMap := [], nextId := 5, log := [] }

/-- Witness for C4 at the out-of-bounds emoji ball of `cleanupDemo`. -/
theorem cleanup_removal_iff_witness :
    ((worldParts cleanupDemo).map MPart.id).Nodup ∧
    (({ self := { id := 2, label := "Circle Body", isStatic := false,
                  x := -5, y := 10 }, extra := [] } : MBody) ∈
        (cleanupPass cleanupDemo).world ↔
      ¬ (isEmojiPart cleanupDemo.bigBallId
           ({ self := { id := 2, label := "Circle Body", isStatic := false,
                        x := -5, y := 10 }, extra := [] } : MBody).self = true ∧
         isOutOfBounds cleanupDemo.renderWidth cleanupDemo.renderHeight
           ({ self := { id := 2, label := "Circle Body", isStatic := false,
                        x := -5, y := 10 }, extra := [] } : MBody).self = true)) :=
  ⟨by decide, cleanup_removal_iff cleanupDemo _ (by decide) (by decide)⟩

/-! ### Rebuild idempotence (claim C5) -/

/-- C5: calling `Init` (or setting `Dimensions`, which stores the new
dimensions and calls `Init`) any number of times leaves the world containing
exactly two boundary bodies, the bodies of exactly one obstacle layout (the
one selected by this call's random roll), and exactly one pendulum body
(counted by its id, which no other body carries) — with no remnants of a
prior build: the resulting world does not depend on the world that was there
before (`w2` ranges over arbitrary prior worlds).  Stated for a successful
asset load (`imgOk = true`); the failure path is the subject of C8. -/
theorem Init_rebuild (s : PhysState) (rnd : ℚ) (w2 : List MBody) :
    (∃ bnd lay ball,
      (Init rnd true s).world = bnd ++ lay ++ [ball] ∧
      bnd.length = 2 ∧
      (∀ b ∈ bnd, b.self.isStatic = true) ∧
      ball.self.label = "Circle Body" ∧
      ball.self.isStatic = false ∧
      ball.self.id = (Init rnd true s).bigBallId ∧
      (∃ n, lay = (assignIds n (layoutProtos rnd s.renderWidth s.renderHeight)).1)) ∧
    ((Init rnd true s).world.filter
        (fun b => b.self.id == (Init rnd true s).bigBallId)).length = 1 ∧
    (layoutProtos rnd s.renderWidth s.renderHeight =
        pegProtos 25 s.renderWidth s.renderHeight ∨
      layoutProtos rnd s.renderWidth s.renderHeight =
        slatProtos s.renderWidth s.renderHeight ∨
      layoutProtos rnd s.renderWidth s.renderHeight =
        wheelsProtos s.renderWidth s.renderHeight ∨
      layoutProtos rnd s.renderWidth s.renderHeight =
        paddlesProtos s.renderWidth s.renderHeight) ∧
    (Init rnd true { s with world := w2 }).world = (Init rnd true s).world := by
  refine ⟨⟨_, _, _, Init_true_world rnd s, ?_, ?_, rfl, rfl, rfl, ⟨_, rfl⟩⟩, ?_, ?_, rfl⟩
  · rw [assignIds_length]
    rfl
  · intro b hbb
    obtain ⟨q, hq, hl, hs⟩ := assignIds_self_shape _ _ b hbb
    rw [hs]
    exact boundaryProtos_static _ _ q hq
  · rw [Init_true_world, Init_true_bigBallId]
    rw [List.filter_append, List.filter_append, List.length_append, List.length_append]
    have hbsnd := assignIds_snd_le
      (assignIds s.nextId (boundaryProtos s.renderWidth s.renderHeight)).2
      (layoutProtos rnd s.renderWidth s.renderHeight)
    have h1 : (assignIds s.nextId (boundaryProtos s.renderWidth s.renderHeight)).1.filter
        (fun b => b.self.id ==
          (assignIds (assignIds s.nextId (boundaryProtos s.renderWidth s.renderHeight)).2
            (layoutProtos rnd s.renderWidth s.renderHeight)).2) = [] := by
      rw [List.filter_eq_nil_iff]
      intro b hbb
      have hlt := (assignIds_self_id_bounds _ _ b hbb).2
      simp only [beq_iff_eq]
      omega
    have h2 : (assignIds (assignIds s.nextId (boundaryProtos s.renderWidth s.renderHeight)).2
          (layoutProtos rnd s.renderWidth s.renderHeight)).1.filter
        (fun b => b.self.id ==
          (assignIds (assignIds s.nextId (boundaryProtos s.renderWidth s.renderHeight)).2
            (layoutProtos rnd s.renderWidth s.renderHeight)).2) = [] := by
      rw [List.filter_eq_nil_iff]
      intro b hbb
      have hlt := (assignIds_self_id_bounds _ _ b hbb).2
      simp only [beq_iff_eq]
      omega
    rw [h1, h2]
    simp [instPart]
  · unfold layoutProtos
    split_ifs <;> tauto

/-! ### Layout branch lemmas -/

theorem layoutProtos_slats (rnd w h : ℚ) (h1 : ¬ rnd ≤ 1/4) (h2 : rnd ≤ 1/2) :
    layoutProtos rnd w h = slatProtos w h := by
  unfold layoutProtos
  rw [if_neg h1, if_pos h2]

theorem layoutProtos_wheels (rnd w h : ℚ) (h1 : ¬ rnd ≤ 1/2) (h2 : rnd ≤ 3/4) :
    layoutProtos rnd w h = wheelsProtos w h := by
  unfold layoutProtos
  rw [if_neg (fun hc => h1 (le_trans hc (by norm_num))), if_neg h1, if_pos h2]

theorem slatProtos_static (w h : ℚ) :
    ∀ q ∈ slatProtos w h, q.self.isStatic = true := by
  intro q hq
  unfold slatProtos at hq
  simp only [List.mem_map, List.mem_range] at hq
  obtain ⟨i, -, rfl⟩ := hq
  split_ifs <;> rfl

theorem wheelsProtos_shape (w h : ℚ) : ∃ x1 y1 x2 y2,
    wheelsProtos w h = [paddlewheelProto x1 y1, paddlewheelProto x2 y2] := by
  exact ⟨_, _, _, _, rfl⟩

/-! ### Asset-load failure (claim C8) -/

/-- Counterexample to C8 as stated: constructing with a 1000×600 playfield,
a slats layout roll, and a failing asset load leaves the failure logged but
NO pendulum body in the world — not a single non-static body exists, and
`_bigBallId` was never assigned — contradicting "the pendulum body still
physically present". -/
theorem assetLoadFailure_counterexample :
    (construct (2/5) false 1000 600 0).log = ["Failed to load the SVG image:"] ∧
    ((construct (2/5) false 1000 600 0).world.filter
        (fun b => b.self.isStatic == false)).length = 0 ∧
    (construct (2/5) false 1000 600 0).bigBallId = 0 := by
  refine ⟨rfl, ?_, rfl⟩
  rw [List.length_eq_zero, List.filter_eq_nil_iff]
  intro b hbb
  rw [show (construct (2/5) false 1000 600 0).world =
        (assignIds 1 (boundaryProtos 1000 600)).1 ++
        (assignIds (assignIds 1 (boundaryProtos 1000 600)).2
          (layoutProtos (2/5) 1000 600)).1 from rfl, List.mem_append] at hbb
  rcases hbb with hbb | hbb
  · obtain ⟨q, hq, -, hs⟩ := assignIds_self_shape _ _ b hbb
    simp [hs, boundaryProtos_static _ _ q hq]
  · rw [layoutProtos_slats _ _ _ (by norm_num) (by norm_num)] at hbb
    obtain ⟨q, hq, -, hs⟩ := assignIds_self_shape _ _ b hbb
    simp [hs, slatProtos_static _ _ q hq]

/-- C8 (amended): if the pendulum's visual asset fails to load, the failure
is logged and the simulation continues — the rest of the rebuild (boundaries
and obstacle layout) is unaffected and the counter is untouched — but the
pendulum body is NOT present: it is created only inside the load-success
callback, so on failure the world contains no non-static simple circle at
all and `_bigBallId` keeps its previous value. -/
theorem assetLoadFailure_logs_and_continues (s : PhysState) (rnd : ℚ) :
    (Init rnd false s).log = s.log ++ ["Failed to load the SVG image:"] ∧
    (Init rnd false s).bigBallId = s.bigBallId ∧
    (Init rnd false s).emojiCount = s.emojiCount ∧
    transientCount (Init rnd false s) = 0 ∧
    ((Init rnd false s).world.filter
        (fun b => b.self.label == "Circle Body" && b.self.isStatic == false)).length
      = 0 := by
  refine ⟨rfl, rfl, rfl, transientCount_Init rnd false s, ?_⟩
  rw [Init_false_world]
  rw [List.length_eq_zero, List.filter_eq_nil_iff]
  intro b hbb
  rw [List.mem_append] at hbb
  rcases hbb with hbb | hbb
  · obtain ⟨q, hq, -, hs⟩ := assignIds_self_shape _ _ b hbb
    simp [hs, boundaryProtos_static _ _ q hq]
  · obtain ⟨q, hq, hl, hs⟩ := assignIds_self_shape _ _ b hbb
    rcases layoutProtos_self_shape _ _ _ q hq with h | h | h
    · simp [hs, h]
    · simp [hl, h]
    · simp [hl, h]

/-! ### ClearAllEmojis against a paddlewheel layout (claims C2 and C3) -/

theorem clear_filter_boundary (bid n : Nat) (w h : ℚ) :
    ((List.map MBody.parts (assignIds n (boundaryProtos w h)).1).flatten).filter
      (fun p => isEmojiPart bid p) = [] := by
  simp [boundaryProtos, assignIds, instParts, instPart, MBody.parts, isEmojiPart]

theorem clear_filter_ball (bid n : Nat) (w h : ℚ) (hb : n = bid) :
    ((List.map MBody.parts
        ([({ self := instPart n (bigBallProto w h), extra := [] } : MBody)])).flatten).filter
      (fun p => isEmojiPart bid p) = [] := by
  subst hb
  simp [MBody.parts, instPart, bigBallProto, isEmojiPart]

theorem clear_filter_wheelpair (bid n : Nat) (x1 y1 x2 y2 : ℚ)
    (hne1 : n + 1 ≠ bid) (hne2 : n + 7 ≠ bid) :
    ((List.map MBody.parts
        (assignIds n [paddlewheelProto x1 y1, paddlewheelProto x2 y2]).1).flatten).filter
      (fun p => isEmojiPart bid p) =
    [{ id := n + 1, label := "Circle Body", isStatic := false, x := x1, y := y1 },
     { id := n + 7, label := "Circle Body", isStatic := false, x := x2, y := y2 }] := by
  have hr : List.range 4 = [0, 1, 2, 3] := rfl
  have hsb : (("Body" : String) == "Circle Body") = false := by decide
  have hsr : (("Rectangle Body" : String) == "Circle Body") = false := by decide
  have hb1 : ((n + 1 : Nat) != bid) = true := by
    rw [bne_iff_ne]
    exact hne1
  have hb2 : ((n + 7 : Nat) != bid) = true := by
    rw [bne_iff_ne]
    exact hne2
  simp [assignIds, paddlewheelProto, hr, instParts, instPart, MBody.parts,
    isEmojiPart, hsb, hsr, hb1, hb2]

theorem ClearAllEmojis_after_wheels (s : PhysState) (rnd : ℚ)
    (h1 : ¬ rnd ≤ 1/2) (h2 : rnd ≤ 3/4) :
    (ClearAllEmojis (Init rnd true s)).emojiCount = s.emojiCount - 2 ∧
    (ClearAllEmojis (Init rnd true s)).world = (Init rnd true s).world ∧
    transientCount (ClearAllEmojis (Init rnd true s)) = 0 := by
  obtain ⟨x1, y1, x2, y2, hwh⟩ := wheelsProtos_shape s.renderWidth s.renderHeight
  have hlay := layoutProtos_wheels rnd s.renderWidth s.renderHeight h1 h2
  have hN : (assignIds s.nextId (boundaryProtos s.renderWidth s.renderHeight)).2 =
      s.nextId + 2 := rfl
  have hBID : (assignIds (s.nextId + 2)
      [paddlewheelProto x1 y1, paddlewheelProto x2 y2]).2 = s.nextId + 14 := rfl
  have hcm : clearMatchedParts (Init rnd true s) =
      [{ id := s.nextId + 3, label := "Circle Body", isStatic := false, x := x1, y := y1 },
       { id := s.nextId + 9, label := "Circle Body", isStatic := false,
         x := x2, y := y2 }] := by
    unfold clearMatchedParts worldParts
    rw [Init_true_world, Init_true_bigBallId, hlay, hwh, hN, hBID]
    rw [List.map_append, List.map_append, List.flatten_append, List.flatten_append,
      List.filter_append, List.filter_append]
    rw [clear_filter_boundary, clear_filter_ball _ _ _ _ rfl,
      clear_filter_wheelpair _ _ _ _ _ _ (by omega) (by omega)]
    simp
  have hworld : (ClearAllEmojis (Init rnd true s)).world = (Init rnd true s).world := by
    have hworld0 : (ClearAllEmojis (Init rnd true s)).world =
        (Init rnd true s).world.filter
          (fun b => (clearMatchedParts (Init rnd true s)).all
            (fun p => p.id != b.self.id)) := rfl
    rw [hworld0, List.filter_eq_self]
    intro b hbw
    rw [hcm]
    rw [Init_true_world, hN, hlay, hwh, List.mem_append, List.mem_append] at hbw
    have hball : b.self.id = s.nextId + 3 ∨ b.self.id = s.nextId + 9 → False := by
      rcases hbw with (hbw | hbw) | hbw
      · have hlt := (assignIds_self_id_bounds _ _ b hbw).2
        rw [hN] at hlt
        omega
      · rw [show (assignIds (s.nextId + 2)
              [paddlewheelProto x1 y1, paddlewheelProto x2 y2]).1 =
            [{ self := instPart (s.nextId + 2) (paddlewheelProto x1 y1).self,
               extra := instParts (s.nextId + 3) (paddlewheelProto x1 y1).extra },
             { self := instPart (s.nextId + 8) (paddlewheelProto x2 y2).self,
               extra := instParts (s.nextId + 9) (paddlewheelProto x2 y2).extra }]
            from rfl] at hbw
        simp only [List.mem_cons, List.not_mem_nil, or_false] at hbw
        rcases hbw with rfl | rfl <;> simp [instPart, paddlewheelProto]
      · simp only [List.mem_singleton] at hbw
        subst hbw
        simp [instPart]
        omega
    simp only [List.all_cons, List.all_nil, Bool.and_true]
    rw [Bool.and_eq_true, bne_iff_ne, bne_iff_ne]
    exact ⟨fun heq => hball (Or.inl heq.symm), fun heq => hball (Or.inr heq.symm)⟩
  refine ⟨?_, hworld, ?_⟩
  · show (Init rnd true s).emojiCount - ((clearMatchedParts (Init rnd true s)).length : ℤ)
        = s.emojiCount - 2
    rw [hcm, Init_emojiCount]
    simp
  · unfold transientCount transientEmojiBodies
    rw [show (ClearAllEmojis (Init rnd true s)).bigBallId =
        (Init rnd true s).bigBallId from rfl, hworld]
    exact transientCount_Init rnd true s

/-- C2 (evaluation at the failing input): constructing with a 1000×600
playfield and a paddlewheel layout roll, then calling `ClearAllEmojis` with
no emoji ever spawned, leaves `_emojiCount = -2` while the world is
unchanged and holds zero transient bodies: the two paddlewheel hub circles
(non-static `"Circle Body"` inner parts with ids other than `_bigBallId`)
are misclassified as emojis, each decrementing the counter while
`World.remove` detaches nothing. -/
theorem counter_exactness_bug :
    (ClearAllEmojis (construct (3/5) true 1000 600 0)).emojiCount = -2 ∧
    transientCount (ClearAllEmojis (construct (3/5) true 1000 600 0)) = 0 ∧
    (ClearAllEmojis (construct (3/5) true 1000 600 0)).world =
      (construct (3/5) true 1000 600 0).world := by
  have h := ClearAllEmojis_after_wheels (initialState 1000 600 0) (3/5)
    (by norm_num) (by norm_num)
  exact ⟨h.1, h.2.2, h.2.1⟩

/-- C3 (evaluation at the failing input): in the same reachable state the
counter invariant `0 ≤ _emojiCount` is violated — the counter is negative
after `ClearAllEmojis`, having started at 0. -/
theorem counter_lower_bound_bug :
    (ClearAllEmojis (construct (3/5) true 1000 600 0)).emojiCount < 0 ∧
    (construct (3/5) true 1000 600 0).emojiCount = 0 := by
  have h := ClearAllEmojis_after_wheels (initialState 1000 600 0) (3/5)
    (by norm_num) (by norm_num)
  have hc : construct (3/5) true 1000 600 0 =
      Init (3/5) true (initialState 1000 600 0) := rfl
  constructor
  · rw [hc, h.1]
    decide
  · rfl

end EmojiPhysics
